import Mathlib

/-!
Shallow embedding of the Normalizer / Metrics Engine core of
`src/app.py` (SupplyChain AI Starter Kit).

Numbers are modelled as exact rationals (`ℚ`); pandas missing values
(`NaN`) are modelled with `Option`; a raw tabular cell is an inductive
`RawCell` (number, string, or missing).  `math.sqrt`, whose float value
is irrelevant to every property below (the advanced safety-stock branch
is clamped by `max 0.0` and the scenario rows take the simple branch),
is passed to the engine as an explicit function parameter `sqrtQ`.
-/

namespace SupplyChain

/-- A raw cell of the input table: a number, a string, or missing (NaN). -/
inductive RawCell where
  | rnum (q : ℚ)
  | rstr (s : String)
  | rna
deriving DecidableEq, Repr

/-- Python `str(...)` as applied by `.astype(str)`: a missing value
renders as the string `"nan"`. -/
def RawCell.asStr : RawCell → String
  | .rnum q => toString q
  | .rstr s => s
  | .rna => "nan"

/-- ASCII lower-casing of one character (Python `str.lower` restricted to
the ASCII range, which covers every categorical label of the app). -/
def lowerChar (c : Char) : Char :=
  if 65 ≤ c.toNat ∧ c.toNat ≤ 90 then Char.ofNat (c.toNat + 32) else c

/-- Whitespace test used by Python `str.strip` (space, tab, newline, CR). -/
def isSpaceChar (c : Char) : Bool :=
  c = ' ' || c = '\t' || c = '\n' || c = '\r'

/-- Strip leading and trailing whitespace from a character list. -/
def trimChars (cs : List Char) : List Char :=
  ((cs.dropWhile isSpaceChar).reverse.dropWhile isSpaceChar).reverse

/-- Python `str.lower` (pandas `.str.lower()`). -/
def pyLower (s : String) : String := String.mk (s.data.map lowerChar)

/-- Python `str.strip` (pandas `.str.strip()`). -/
def pyStrip (s : String) : String := String.mk (trimChars s.data)

/-- Fold a list of decimal digit characters into a number; `none` if any
character is not a digit. -/
def foldDigits (cs : List Char) : Option Nat :=
  cs.foldl
    (fun acc c => acc.bind fun n =>
      if c.isDigit then some (10 * n + (c.toNat - 48)) else none)
    (some 0)

/-- Parse a decimal numeral (optional sign, optional fractional part),
mirroring what `pd.to_numeric(..., errors="coerce")` accepts on the string
inputs relevant here; non-numerals give `none` (coerced to NaN). -/
def parseNumQ (s : String) : Option ℚ :=
  let cs := (pyStrip s).data
  let signAndRest : Bool × List Char :=
    match cs with
    | '-' :: rest => (true, rest)
    | '+' :: rest => (false, rest)
    | _ => (false, cs)
  let neg := signAndRest.1
  let body := signAndRest.2
  match body.splitOn '.' with
  | [ip] =>
      if ip.isEmpty then none
      else (foldDigits ip).map fun n => if neg then -(n : ℚ) else (n : ℚ)
  | [ip, fp] =>
      if ip.isEmpty ∧ fp.isEmpty then none
      else
        (foldDigits ip).bind fun n =>
          (foldDigits fp).map fun m =>
            let q : ℚ := (n : ℚ) + (m : ℚ) / ((10 : ℚ) ^ fp.length)
            if neg then -q else q
  | _ => none

/-- Pandas `to_numeric(..., errors="coerce")` on one cell: numbers pass
through, strings are parsed (`none` when unparseable), NaN stays NaN. -/
def toNumeric : RawCell → Option ℚ
  | .rnum q => some q
  | .rstr s => parseNumQ s
  | .rna => none

/-- From `app.py` lines 150-152: `criticita` is `astype(str)`-ed, lower-cased,
stripped, and the synonyms alto/medio/basso are mapped; any other value
is left unchanged (there is no default branch for `criticita`). -/
def canonCriticita (c : RawCell) : String :=
  let s := pyStrip (pyLower c.asStr)
  if s = "alto" then "alta"
  else if s = "medio" then "media"
  else if s = "basso" then "bassa"
  else s

/-- From `app.py` lines 154-157: canonicalize `stagionale` and coerce anything
outside {si, no} to "no". -/
def canonStagionale (c : RawCell) : String :=
  let s := pyStrip (pyLower c.asStr)
  let s :=
    if s = "sì" then "si"
    else if s = "yes" then "si"
    else if s = "y" then "si"
    else if s = "true" then "si"
    else if s = "1" then "si"
    else s
  if s = "si" ∨ s = "no" then s else "no"

/-- From `app.py` lines 159-162: canonicalize `livello_servizio` and coerce
anything outside {alto, medio, basso} to "medio". -/
def canonLivello (c : RawCell) : String :=
  let s := pyStrip (pyLower c.asStr)
  let s :=
    if s = "high" then "alto"
    else if s = "medium" then "medio"
    else if s = "low" then "basso"
    else s
  if s = "alto" ∨ s = "medio" ∨ s = "basso" then s else "medio"

/-- One raw input row.  The six required columns are present (the app
validates the schema with `validate_columns` before normalizing); an
optional column may be absent (`none`), in which case `normalize_df`
fills the default from `OPTIONAL_DEFAULTS`. -/
structure RawRow where
  articolo : RawCell
  consumo_mensile : RawCell
  lead_time_giorni : RawCell
  stock_attuale : RawCell
  criticita : RawCell
  valore_unitario : RawCell
  stagionale : Option RawCell := none
  indice_rotazione : Option RawCell := none
  deviazione_standard : Option RawCell := none
  livello_servizio : Option RawCell := none
deriving DecidableEq, Repr

/-- A normalized row as produced by `normalize_df`: the four numeric
required fields are genuine numbers (rows where any coerced to NaN were
dropped), the categorical fields are canonical strings, and the optional
numeric fields may still be NaN (`none`). -/
structure NormRow where
  articolo : RawCell
  consumo_mensile : ℚ
  lead_time_giorni : ℚ
  stock_attuale : ℚ
  criticita : String
  valore_unitario : ℚ
  stagionale : String
  indice_rotazione : Option ℚ
  deviazione_standard : Option ℚ
  livello_servizio : String
deriving DecidableEq, Repr

/-- The `normalize_df` body restricted to one row: fill the optional defaults
(`stagionale:"no"`, `indice_rotazione:8.0`, `deviazione_standard:NaN`,
`livello_servizio:"medio"`), canonicalize the categoricals, coerce the
numerics, and return `none` exactly when `dropna(subset=REQUIRED_COLS)`
would drop the row.  Note that after `astype(str)` the `criticita`
column holds strings only (a missing value became `"nan"`), so `dropna`
never drops a row because of `criticita`. -/
def normRow (r : RawRow) : Option NormRow :=
  let crit := canonCriticita r.criticita
  let stag := canonStagionale (r.stagionale.getD (.rstr "no"))
  let liv := canonLivello (r.livello_servizio.getD (.rstr "medio"))
  let rot := toNumeric (r.indice_rotazione.getD (.rnum 8))
  let dev := toNumeric (r.deviazione_standard.getD .rna)
  match toNumeric r.consumo_mensile, toNumeric r.lead_time_giorni,
        toNumeric r.stock_attuale, toNumeric r.valore_unitario with
  | some cm, some lt, some sa, some vu =>
      if r.articolo = .rna then none
      else
        some { articolo := r.articolo
               consumo_mensile := cm
               lead_time_giorni := lt
               stock_attuale := sa
               criticita := crit
               valore_unitario := vu
               stagionale := stag
               indice_rotazione := rot
               deviazione_standard := dev
               livello_servizio := liv }
  | _, _, _, _ => none

/-- From `app.py` `normalize_df` over a batch of rows. -/
def normalize_df (l : List RawRow) : List NormRow :=
  l.filterMap normRow

/-- From `app.py` line 173: Z-score from service level (dict lookup with
default 1.65). -/
def z_from_service (level : String) : ℚ :=
  if level = "basso" then 1.04
  else if level = "medio" then 1.65
  else if level = "alto" then 2.05
  else 1.65

/-- From `app.py` line 177: criticality micro-factor (default 1.0). -/
def crit_factor (crit : String) : ℚ :=
  if crit = "bassa" then 0.9
  else if crit = "media" then 1.0
  else if crit = "alta" then 1.1
  else 1.0

/-- From `app.py` line 181: rotation factor; NaN (`none`) gives 1.0. -/
def rotation_factor (rot : Option ℚ) : ℚ :=
  match rot with
  | none => 1.0
  | some r => if r ≥ 12 then 1.10 else if r ≥ 6 then 1.00 else 0.90

/-- From `app.py` line 191: seasonality factor. -/
def season_factor (stagionale : String) : ℚ :=
  if stagionale = "si" then 1.15 else 1.00

/-- numpy/pandas `.round(2)`: round half to even at two decimals. -/
def round2 (q : ℚ) : ℚ :=
  let y := q * 100
  let f := ⌊y⌋
  let r := y - (f : ℚ)
  let n : ℤ :=
    if r > 1 / 2 then f + 1
    else if r < 1 / 2 then f
    else if f % 2 = 0 then f else f + 1
  (n : ℚ) / 100

/-- An output row of `compute_metrics`: the normalized columns plus every
derived column the function adds, in source order. -/
structure OutRow where
  articolo : RawCell
  consumo_mensile : ℚ
  lead_time_giorni : ℚ
  stock_attuale : ℚ
  criticita : String
  valore_unitario : ℚ
  stagionale : String
  indice_rotazione : Option ℚ
  deviazione_standard : Option ℚ
  livello_servizio : String
  consumo_giornaliero : ℚ
  domanda_lt : ℚ
  sigma_daily : Option ℚ
  sqrt_lt : ℚ
  z : ℚ
  ss_base : Option ℚ
  fatt_stag : ℚ
  fatt_rot : ℚ
  fatt_crit : ℚ
  scorta_sicurezza : ℚ
  punto_riordino : ℤ
  qty_suggerita : ℤ
  rischio_stockout : String
  valore_ordine_suggerito : ℚ
  capitale_immobilizzato : ℚ
deriving DecidableEq, Repr

/-- From `app.py` line 198: `consumo_giornaliero = consumo_mensile / workdays`. -/
def consumo_giornaliero (workdays : ℤ) (r : NormRow) : ℚ :=
  r.consumo_mensile / (workdays : ℚ)

/-- From `app.py` line 199: `domanda_lt = consumo_giornaliero * lead_time_giorni`. -/
def domanda_lt (workdays : ℤ) (r : NormRow) : ℚ :=
  consumo_giornaliero workdays r * r.lead_time_giorni

/-- From `app.py` line 202: `sigma_daily = deviazione_standard / sqrt(workdays)`;
NaN (`none`) exactly when `deviazione_standard` is NaN.  `sqrtQ` stands
for `math.sqrt`. -/
def sigma_daily (sqrtQ : ℚ → ℚ) (workdays : ℤ) (r : NormRow) : Option ℚ :=
  r.deviazione_standard.map fun d => d / sqrtQ (workdays : ℚ)

/-- From `app.py` line 203: `sqrt_lt = sqrt(max(lead_time_giorni, 0.0))`. -/
def sqrt_lt (sqrtQ : ℚ → ℚ) (r : NormRow) : ℚ :=
  sqrtQ (max r.lead_time_giorni 0)

/-- From `app.py` line 206: `ss_base = z * sigma_daily * sqrt_lt` (NaN when
`sigma_daily` is NaN). -/
def ss_base (sqrtQ : ℚ → ℚ) (workdays : ℤ) (r : NormRow) : Option ℚ :=
  (sigma_daily sqrtQ workdays r).map fun sd =>
    z_from_service r.livello_servizio * sd * sqrt_lt sqrtQ r

/-- From `app.py` lines 212-219 (`ss_final`): the simple percentage fallback
when `deviazione_standard`/`sigma_daily` is NaN, otherwise the advanced
formula clamped at 0. -/
def ss_final (sqrtQ : ℚ → ℚ) (workdays : ℤ) (r : NormRow) : ℚ :=
  match r.deviazione_standard, ss_base sqrtQ workdays r with
  | some _, some b =>
      max 0 (b * season_factor r.stagionale * rotation_factor r.indice_rotazione *
        crit_factor r.criticita)
  | _, _ =>
      let base_pct : ℚ :=
        if r.criticita = "alta" then 0.50
        else if r.criticita = "media" then 0.30
        else 0.15
      domanda_lt workdays r * base_pct * season_factor r.stagionale *
        rotation_factor r.indice_rotazione

/-- From `app.py` line 221: `punto_riordino = int(ceil(domanda_lt + scorta_sicurezza))`. -/
def punto_riordino (sqrtQ : ℚ → ℚ) (workdays : ℤ) (r : NormRow) : ℤ :=
  ⌈domanda_lt workdays r + ss_final sqrtQ workdays r⌉

/-- From `app.py` line 222: `qty_suggerita = int(ceil((punto_riordino - stock_attuale).clip(lower=0)))`. -/
def qty_suggerita (sqrtQ : ℚ → ℚ) (workdays : ℤ) (r : NormRow) : ℤ :=
  ⌈max ((punto_riordino sqrtQ workdays r : ℚ) - r.stock_attuale) 0⌉

/-- From `app.py` lines 224-229 (`risk`): the stockout-risk classification. -/
def risk (sqrtQ : ℚ → ℚ) (workdays : ℤ) (r : NormRow) : String :=
  if r.stock_attuale < domanda_lt workdays r then "alto"
  else if r.stock_attuale < (punto_riordino sqrtQ workdays r : ℚ) then "medio"
  else "basso"

/-- The per-row body of `compute_metrics` (`app.py` lines 195-235),
assembling every derived column in source order. -/
def computeRow (sqrtQ : ℚ → ℚ) (workdays : ℤ) (r : NormRow) : OutRow :=
  { articolo := r.articolo
    consumo_mensile := r.consumo_mensile
    lead_time_giorni := r.lead_time_giorni
    stock_attuale := r.stock_attuale
    criticita := r.criticita
    valore_unitario := round2 r.valore_unitario
    stagionale := r.stagionale
    indice_rotazione := r.indice_rotazione
    deviazione_standard := r.deviazione_standard
    livello_servizio := r.livello_servizio
    consumo_giornaliero := consumo_giornaliero workdays r
    domanda_lt := domanda_lt workdays r
    sigma_daily := sigma_daily sqrtQ workdays r
    sqrt_lt := sqrt_lt sqrtQ r
    z := z_from_service r.livello_servizio
    ss_base := ss_base sqrtQ workdays r
    fatt_stag := season_factor r.stagionale
    fatt_rot := rotation_factor r.indice_rotazione
    fatt_crit := crit_factor r.criticita
    scorta_sicurezza := ss_final sqrtQ workdays r
    punto_riordino := punto_riordino sqrtQ workdays r
    qty_suggerita := qty_suggerita sqrtQ workdays r
    rischio_stockout := risk sqrtQ workdays r
    valore_ordine_suggerito :=
      round2 ((qty_suggerita sqrtQ workdays r : ℚ) * round2 r.valore_unitario)
    capitale_immobilizzato := round2 (r.stock_attuale * round2 r.valore_unitario) }

/-- From `app.py` lines 195-237: `compute_metrics` applies the per-row
pipeline to every row.  The function contains no sorting step and no
validation of `workdays`. -/
def compute_metrics (sqrtQ : ℚ → ℚ) (df : List NormRow) (workdays : ℤ) : List OutRow :=
  df.map (computeRow sqrtQ workdays)

/-- Scenario A input row: consumo_mensile=100, lead_time_giorni=10,
stock_attuale=20, criticita="alta", valore_unitario=10.50, no optional
columns present (so deviazione_standard is absent and the simple
safety-stock formula applies). -/
def rowA : RawRow :=
  { articolo := .rstr "A001", consumo_mensile := .rnum 100,
    lead_time_giorni := .rnum 10, stock_attuale := .rnum 20,
    criticita := .rstr "alta", valore_unitario := .rnum 10.50 }

/-- Same item as Scenario A but with ample stock, so its risk is "basso". -/
def rowSafe : RawRow :=
  { articolo := .rstr "S001", consumo_mensile := .rnum 100,
    lead_time_giorni := .rnum 10, stock_attuale := .rnum 1000,
    criticita := .rstr "alta", valore_unitario := .rnum 5 }

/-- Scenario A item with fractional stock 19.5, separating
`ceil(max(0, pr - stock))` from `max(0, pr - stock)`. -/
def rowFrac : RawRow :=
  { articolo := .rstr "F001", consumo_mensile := .rnum 100,
    lead_time_giorni := .rnum 10, stock_attuale := .rnum 19.5,
    criticita := .rstr "alta", valore_unitario := .rnum 10.50 }

/-- Row whose criticita cell is missing (NaN). -/
def rowNoCrit : RawRow :=
  { articolo := .rstr "M001", consumo_mensile := .rnum 100,
    lead_time_giorni := .rnum 10, stock_attuale := .rnum 20,
    criticita := .rna, valore_unitario := .rnum 10.50 }

/-- Row with an unrecognized criticita label. -/
def rowUrg : RawRow :=
  { articolo := .rstr "U001", consumo_mensile := .rnum 100,
    lead_time_giorni := .rnum 10, stock_attuale := .rnum 20,
    criticita := .rstr "urgente", valore_unitario := .rnum 10.50 }

/-- The normalized Scenario A row, i.e. what `normalize_df` makes of
`rowA` (checked by `optional_enums_invariant_witness`). -/
def nrA : NormRow :=
  { articolo := .rstr "A001", consumo_mensile := 100, lead_time_giorni := 10,
    stock_attuale := 20, criticita := "alta", valore_unitario := 10.50,
    stagionale := "no", indice_rotazione := some 8, deviazione_standard := none,
    livello_servizio := "medio" }

/-- The normalized form of `rowUrg`: the unrecognized criticita label
survives normalization untouched. -/
def nrUrg : NormRow :=
  { articolo := .rstr "U001", consumo_mensile := 100, lead_time_giorni := 10,
    stock_attuale := 20, criticita := "urgente", valore_unitario := 10.50,
    stagionale := "no", indice_rotazione := some 8, deviazione_standard := none,
    livello_servizio := "medio" }

/-- The seasonality factor is positive (1.15 or 1.00). -/
theorem season_factor_pos (s : String) : 0 < season_factor s := by
  unfold season_factor; split_ifs <;> norm_num

/-- The rotation factor is positive (1.10, 1.00 or 0.90). -/
theorem rotation_factor_pos (r : Option ℚ) : 0 < rotation_factor r := by
  cases r with
  | none => norm_num [rotation_factor]
  | some q => simp only [rotation_factor]; split_ifs <;> norm_num

/-- Lead-time demand is non-negative when workdays is positive and the
consumption and lead-time inputs are non-negative. -/
theorem domanda_lt_nonneg (w : ℤ) (r : NormRow) (hw : 0 < w)
    (hc : 0 ≤ r.consumo_mensile) (hl : 0 ≤ r.lead_time_giorni) :
    0 ≤ domanda_lt w r := by
  unfold domanda_lt consumo_giornaliero
  exact mul_nonneg (div_nonneg hc (by exact_mod_cast hw.le)) hl

/-- Safety stock is non-negative on both formula paths: the advanced
branch is clamped by `max 0.0`, and the simple branch is a product of
non-negative factors. -/
theorem ss_final_nonneg (f : ℚ → ℚ) (w : ℤ) (r : NormRow) (hw : 0 < w)
    (hc : 0 ≤ r.consumo_mensile) (hl : 0 ≤ r.lead_time_giorni) :
    0 ≤ ss_final f w r := by
  unfold ss_final
  split
  · exact le_max_left 0 _
  · refine mul_nonneg (mul_nonneg (mul_nonneg (domanda_lt_nonneg w r hw hc hl) ?_)
      (season_factor_pos _).le) (rotation_factor_pos _).le
    split_ifs <;> norm_num

/-- Canonicalized stagionale always lands in ⦃si, no⦄. -/
theorem canonStagionale_cases (c : RawCell) :
    canonStagionale c = "si" ∨ canonStagionale c = "no" := by
  simp only [canonStagionale]
  split_ifs <;> simp_all

/-- Canonicalized livello_servizio always lands in ⦃alto, medio, basso⦄. -/
theorem canonLivello_cases (c : RawCell) :
    canonLivello c = "alto" ∨ canonLivello c = "medio" ∨ canonLivello c = "basso" := by
  simp only [canonLivello]
  split_ifs <;> simp_all

/-- C1 (amended): on the Scenario A item (consumo_mensile=100,
lead_time_giorni=10, stock_attuale=20, criticita="alta",
valore_unitario=10.50, no deviazione_standard, workdays=22) the Metrics
Engine produces consumo_giornaliero = 50/11 ≈ 4.545, domanda_lt = 500/11
≈ 45.45, scorta_sicurezza = 250/11 ≈ 22.73, punto_riordino = 69 =
ceil(68.18), qty_suggerita = 49 and rischio_stockout = "alto". -/
theorem scenarioA_metrics :
    (compute_metrics (fun _ => 0) (normalize_df [rowA]) 22).map (fun o =>
      (o.consumo_giornaliero, o.domanda_lt, o.scorta_sicurezza,
        o.punto_riordino, o.qty_suggerita, o.rischio_stockout))
      = [(50/11, 500/11, 250/11, 69, 49, "alto")] := by
  have h69 : (⌈(750 : ℚ)/11⌉ : ℤ) = 69 := by norm_num [Int.ceil_eq_iff]
  simp [rowA, compute_metrics, computeRow, normalize_df, normRow, consumo_giornaliero,
    domanda_lt, sigma_daily, sqrt_lt, ss_base, ss_final, punto_riordino, qty_suggerita,
    risk, canonCriticita, canonStagionale, canonLivello, toNumeric, parseNumQ, foldDigits,
    z_from_service, crit_factor, rotation_factor, season_factor, round2, RawCell.asStr,
    pyLower, pyStrip, trimChars, lowerChar, isSpaceChar]
  norm_num [h69]

/-- C1 counterexample: on the Scenario A item the engine does not produce
punto_riordino = 68 and qty_suggerita = 48 as the claim states (since
domanda_lt + scorta_sicurezza = 750/11 ≈ 68.18 and its ceiling is 69). -/
theorem scenarioA_not_spec_values :
    (compute_metrics (fun _ => 0) (normalize_df [rowA]) 22).map (fun o =>
      (o.punto_riordino, o.qty_suggerita)) ≠ [(68, 48)] := by
  have h69 : (⌈(750 : ℚ)/11⌉ : ℤ) = 69 := by norm_num [Int.ceil_eq_iff]
  simp [rowA, compute_metrics, computeRow, normalize_df, normRow, consumo_giornaliero,
    domanda_lt, sigma_daily, sqrt_lt, ss_base, ss_final, punto_riordino, qty_suggerita,
    risk, canonCriticita, canonStagionale, canonLivello, toNumeric, parseNumQ, foldDigits,
    z_from_service, crit_factor, rotation_factor, season_factor, round2, RawCell.asStr,
    pyLower, pyStrip, trimChars, lowerChar, isSpaceChar]
  norm_num [h69]

/-- C2 (amended): the Metrics Engine performs no sorting at all — the
result set preserves the original row order for every input and every
workdays value. -/
theorem compute_metrics_preserves_row_order (f : ℚ → ℚ) (df : List NormRow) (w : ℤ) :
    (compute_metrics f df w).map OutRow.articolo = df.map NormRow.articolo := by
  simp only [compute_metrics, List.map_map]
  exact List.map_congr_left fun a _ => rfl

/-- C2 counterexample: feeding a "basso"-risk row followed by an
"alto"-risk row, the engine returns them in that same order, so an
"alto" row appears after a "basso" row — the claimed risk-precedence
sort does not hold. -/
theorem unsorted_risk_order :
    (compute_metrics (fun _ => 0) (normalize_df [rowSafe, rowA]) 22).map
      OutRow.rischio_stockout = ["basso", "alto"] := by
  have h69 : (⌈(750 : ℚ)/11⌉ : ℤ) = 69 := by norm_num [Int.ceil_eq_iff]
  simp [rowA, rowSafe, compute_metrics, computeRow, normalize_df, normRow, consumo_giornaliero,
    domanda_lt, sigma_daily, sqrt_lt, ss_base, ss_final, punto_riordino, qty_suggerita,
    risk, canonCriticita, canonStagionale, canonLivello, toNumeric, parseNumQ, foldDigits,
    z_from_service, crit_factor, rotation_factor, season_factor, round2, RawCell.asStr,
    pyLower, pyStrip, trimChars, lowerChar, isSpaceChar]
  norm_num [h69]

/-- C3: `compute_metrics` contains no validation of `workdays` — called
with workdays = 0 (or any non-positive value) it returns normally (here
on the empty batch, where the Python code also returns without raising)
instead of rejecting the input with an error. -/
theorem compute_metrics_no_workdays_guard (f : ℚ → ℚ) (w : ℤ) :
    compute_metrics f [] w = [] := rfl

/-- C4 (amended): the Normalizer drops a row exactly when `articolo` is
missing or one of the four numeric required fields is missing or
unparseable after coercion; `criticita` never causes a drop because
`astype(str)` turns a missing value into the string "nan". -/
theorem normRow_none_iff (r : RawRow) :
    normRow r = none ↔
      (r.articolo = .rna ∨ toNumeric r.consumo_mensile = none ∨
        toNumeric r.lead_time_giorni = none ∨ toNumeric r.stock_attuale = none ∨
        toNumeric r.valore_unitario = none) := by
  cases h1 : toNumeric r.consumo_mensile <;>
    cases h2 : toNumeric r.lead_time_giorni <;>
      cases h3 : toNumeric r.stock_attuale <;>
        cases h4 : toNumeric r.valore_unitario <;>
          simp [normRow, h1, h2, h3, h4]

/-- C4 counterexample: the row whose criticita cell is missing is not
dropped — it reaches the Metrics Engine with criticita = "nan". -/
theorem missing_criticita_row_kept :
    (normalize_df [rowNoCrit]).map NormRow.criticita = ["nan"] := by
  simp [rowNoCrit, normalize_df, normRow, canonCriticita, canonStagionale, canonLivello,
    toNumeric, parseNumQ, foldDigits, RawCell.asStr, pyLower, pyStrip, trimChars,
    lowerChar, isSpaceChar]

/-- C5: for every row the engine outputs, punto_riordino is the ceiling
of domanda_lt + scorta_sicurezza; with positive workdays and
non-negative consumption and lead time it is a non-negative integer,
scorta_sicurezza is non-negative on both formula paths, and
punto_riordino is at least the ceiling of domanda_lt. -/
theorem punto_riordino_spec (f : ℚ → ℚ) (df : List NormRow) (w : ℤ) (o : OutRow)
    (ho : o ∈ compute_metrics f df w) (hw : 0 < w)
    (hc : 0 ≤ o.consumo_mensile) (hl : 0 ≤ o.lead_time_giorni) :
    o.punto_riordino = ⌈o.domanda_lt + o.scorta_sicurezza⌉ ∧
      0 ≤ o.scorta_sicurezza ∧ 0 ≤ o.punto_riordino ∧
      ⌈o.domanda_lt⌉ ≤ o.punto_riordino := by
  obtain ⟨r, hr, rfl⟩ := List.mem_map.mp ho
  simp only [computeRow] at hc hl ⊢
  have hss : 0 ≤ ss_final f w r := ss_final_nonneg f w r hw hc hl
  have hdlt : 0 ≤ domanda_lt w r := domanda_lt_nonneg w r hw hc hl
  refine ⟨rfl, hss, ?_, ?_⟩
  · exact Int.ceil_nonneg (by linarith)
  · exact Int.ceil_le_ceil (by linarith)

/-- C5 witness: the Scenario A row instantiates `punto_riordino_spec`. -/
theorem punto_riordino_spec_witness :
    computeRow (fun _ => 0) 22 nrA ∈ compute_metrics (fun _ => 0) [nrA] 22 ∧
      (0 : ℤ) < 22 ∧
      ((computeRow (fun _ => 0) 22 nrA).punto_riordino =
          ⌈(computeRow (fun _ => 0) 22 nrA).domanda_lt +
            (computeRow (fun _ => 0) 22 nrA).scorta_sicurezza⌉ ∧
        0 ≤ (computeRow (fun _ => 0) 22 nrA).scorta_sicurezza ∧
        0 ≤ (computeRow (fun _ => 0) 22 nrA).punto_riordino ∧
        ⌈(computeRow (fun _ => 0) 22 nrA).domanda_lt⌉ ≤
          (computeRow (fun _ => 0) 22 nrA).punto_riordino) :=
  ⟨by simp [compute_metrics], by norm_num,
    punto_riordino_spec (fun _ => 0) [nrA] 22 (computeRow (fun _ => 0) 22 nrA)
      (by simp [compute_metrics]) (by norm_num)
      (by norm_num [computeRow, nrA]) (by norm_num [computeRow, nrA])⟩

/-- C6 (amended): for every row the engine outputs, qty_suggerita is the
ceiling of max(0, punto_riordino - stock_attuale) — an integer that is
always non-negative (the plain max without the ceiling holds only for
integer stock levels, see `qty_not_plain_max`). -/
theorem qty_suggerita_spec (f : ℚ → ℚ) (df : List NormRow) (w : ℤ) (o : OutRow)
    (ho : o ∈ compute_metrics f df w) :
    o.qty_suggerita = ⌈max ((o.punto_riordino : ℚ) - o.stock_attuale) 0⌉ ∧
      0 ≤ o.qty_suggerita := by
  obtain ⟨r, hr, rfl⟩ := List.mem_map.mp ho
  refine ⟨rfl, ?_⟩
  exact Int.ceil_nonneg (le_max_right _ _)

/-- C6 witness: the Scenario A row instantiates `qty_suggerita_spec`. -/
theorem qty_suggerita_spec_witness :
    computeRow (fun _ => 0) 22 nrA ∈ compute_metrics (fun _ => 0) [nrA] 22 ∧
      ((computeRow (fun _ => 0) 22 nrA).qty_suggerita =
          ⌈max (((computeRow (fun _ => 0) 22 nrA).punto_riordino : ℚ) -
            (computeRow (fun _ => 0) 22 nrA).stock_attuale) 0⌉ ∧
        0 ≤ (computeRow (fun _ => 0) 22 nrA).qty_suggerita) :=
  ⟨by simp [compute_metrics],
    qty_suggerita_spec (fun _ => 0) [nrA] 22 (computeRow (fun _ => 0) 22 nrA)
      (by simp [compute_metrics])⟩

/-- C6 counterexample: with stock_attuale = 19.5 the engine outputs
qty_suggerita = 50 while max(0, punto_riordino - stock_attuale) = 49.5,
so the claimed equality without the ceiling fails. -/
theorem qty_not_plain_max :
    (compute_metrics (fun _ => 0) (normalize_df [rowFrac]) 22).map (fun o =>
      ((o.qty_suggerita : ℚ), o.stock_attuale, o.punto_riordino))
      = [(50, 39/2, 69)] ∧ (50 : ℚ) ≠ max 0 ((69 : ℚ) - 39/2) := by
  have h69 : (⌈(750 : ℚ)/11⌉ : ℤ) = 69 := by norm_num [Int.ceil_eq_iff]
  have h50 : (⌈(99 : ℚ)/2⌉ : ℤ) = 50 := by norm_num [Int.ceil_eq_iff]
  constructor
  · simp [rowFrac, compute_metrics, computeRow, normalize_df, normRow, consumo_giornaliero,
      domanda_lt, sigma_daily, sqrt_lt, ss_base, ss_final, punto_riordino, qty_suggerita,
      risk, canonCriticita, canonStagionale, canonLivello, toNumeric, parseNumQ, foldDigits,
      z_from_service, crit_factor, rotation_factor, season_factor, round2, RawCell.asStr,
      pyLower, pyStrip, trimChars, lowerChar, isSpaceChar]
    norm_num [h69, h50]
  · norm_num

/-- C7: the risk classification is total and mutually exclusive — every
output row carries exactly one of "alto", "medio", "basso", with "alto"
iff stock_attuale < domanda_lt, "medio" iff otherwise
stock_attuale < punto_riordino, and "basso" otherwise, all in terms of
that row's own values. -/
theorem rischio_spec (f : ℚ → ℚ) (df : List NormRow) (w : ℤ) (o : OutRow)
    (ho : o ∈ compute_metrics f df w) :
    (o.rischio_stockout = "alto" ∨ o.rischio_stockout = "medio" ∨
        o.rischio_stockout = "basso") ∧
      (o.rischio_stockout = "alto" ↔ o.stock_attuale < o.domanda_lt) ∧
      (o.rischio_stockout = "medio" ↔
        (¬ o.stock_attuale < o.domanda_lt ∧
          o.stock_attuale < (o.punto_riordino : ℚ))) ∧
      (o.rischio_stockout = "basso" ↔
        (¬ o.stock_attuale < o.domanda_lt ∧
          ¬ o.stock_attuale < (o.punto_riordino : ℚ))) := by
  obtain ⟨r, hr, rfl⟩ := List.mem_map.mp ho
  simp only [computeRow]
  unfold risk
  split_ifs with h1 h2 <;> simp_all

/-- C7 witness: the Scenario A row instantiates `rischio_spec`. -/
theorem rischio_spec_witness :
    computeRow (fun _ => 0) 22 nrA ∈ compute_metrics (fun _ => 0) [nrA] 22 ∧
      ((computeRow (fun _ => 0) 22 nrA).rischio_stockout = "alto" ∨
        (computeRow (fun _ => 0) 22 nrA).rischio_stockout = "medio" ∨
        (computeRow (fun _ => 0) 22 nrA).rischio_stockout = "basso") :=
  ⟨by simp [compute_metrics],
    (rischio_spec (fun _ => 0) [nrA] 22 (computeRow (fun _ => 0) 22 nrA)
      (by simp [compute_metrics])).1⟩

/-- C8 (amended): normalization maps criticita through lower-casing,
trimming and the synonym table only; a value still outside
⦃bassa, media, alta⦄ is left as-is — no default "media" is applied. -/
theorem criticita_canonical (raw : RawRow) (nr : NormRow)
    (h : normRow raw = some nr) : nr.criticita = canonCriticita raw.criticita := by
  unfold normRow at h
  split at h
  · split at h
    · exact absurd h (by simp)
    · cases h; rfl
  · exact absurd h (by simp)

/-- C8 witness: `criticita_canonical` instantiated on `rowUrg`. -/
theorem criticita_canonical_witness :
    normRow rowUrg = some nrUrg ∧
      nrUrg.criticita = canonCriticita rowUrg.criticita :=
  ⟨rfl, criticita_canonical rowUrg nrUrg rfl⟩

/-- C8 counterexample: the unrecognized label "urgente" survives
normalization unchanged and lies outside ⦃bassa, media, alta⦄, so the
claimed coercion to the default "media" does not happen. -/
theorem criticita_not_defaulted :
    (normalize_df [rowUrg]).map NormRow.criticita = ["urgente"] ∧
      "urgente" ≠ "bassa" ∧ "urgente" ≠ "media" ∧ "urgente" ≠ "alta" :=
  ⟨rfl, by decide, by decide, by decide⟩

/-- C9: the Metrics Engine is deterministic — two runs on equal
normalized inputs with equal workdays yield identical output. -/
theorem compute_metrics_deterministic (f : ℚ → ℚ) (df1 df2 : List NormRow)
    (w1 w2 : ℤ) (hdf : df1 = df2) (hw : w1 = w2) :
    compute_metrics f df1 w1 = compute_metrics f df2 w2 := by
  subst hdf; subst hw; rfl

/-- C9 witness: determinism instantiated on the Scenario A batch. -/
theorem compute_metrics_deterministic_witness :
    [nrA] = [nrA] ∧ (22 : ℤ) = 22 ∧
      compute_metrics (fun _ => 0) [nrA] 22 = compute_metrics (fun _ => 0) [nrA] 22 :=
  ⟨rfl, rfl, compute_metrics_deterministic (fun _ => 0) [nrA] [nrA] 22 22 rfl rfl⟩

/-- C10: every normalized row has stagionale in ⦃si, no⦄ and
livello_servizio in ⦃alto, medio, basso⦄ — unrecognized or missing
values were coerced to the defaults "no" and "medio". -/
theorem optional_enums_invariant (raw : RawRow) (nr : NormRow)
    (h : normRow raw = some nr) :
    (nr.stagionale = "si" ∨ nr.stagionale = "no") ∧
      (nr.livello_servizio = "alto" ∨ nr.livello_servizio = "medio" ∨
        nr.livello_servizio = "basso") := by
  unfold normRow at h
  split at h
  · split at h
    · exact absurd h (by simp)
    · cases h
      exact ⟨canonStagionale_cases _, canonLivello_cases _⟩
  · exact absurd h (by simp)

/-- C10 witness: the invariant instantiated on `rowA` / `nrA`. -/
theorem optional_enums_invariant_witness :
    normRow rowA = some nrA ∧
      ((nrA.stagionale = "si" ∨ nrA.stagionale = "no") ∧
        (nrA.livello_servizio = "alto" ∨ nrA.livello_servizio = "medio" ∨
          nrA.livello_servizio = "basso")) :=
  ⟨rfl, optional_enums_invariant rowA nrA rfl⟩

end SupplyChain
